import Mathlib

/-!
Shallow embedding of the texture-resolution logic of the mesh-viewer
repository (`testing.py` / `new.py`): the `os.path` helpers it calls,
the candidate generation and first-match search of
`MeshGUI.find_texture_file`, the line scanners for `mtllib` / `map_Kd`
keywords, and the load pipeline `MeshGUI.load_obj_with_textures`.
The file system is modelled as the (case-sensitive) set of existing
paths; reading a file is modelled by the list of lines delivered before
an optional I/O failure.
-/

namespace HMR

/-- A file system modelled as the list of paths that exist.  Path
comparison is exact string equality (a case-sensitive file system). -/
structure FS where
  files : List String
  deriving DecidableEq

/-- Models `os.path.exists`: membership of the path in the file system. -/
def FS.pathExists (fs : FS) (p : String) : Bool :=
  fs.files.contains p

/-- Index of the last occurrence of character `c` in `s`
(Python's `str.rfind`, as `Option` instead of `-1`). -/
def lastIdxOf (s : List Char) (c : Char) : Option Nat :=
  ((List.range s.length).filter (fun i => s.get? i == some c)).getLast?

/-- Models Python `str.startswith` (and Lean `String.startsWith`)
by a structural prefix test on the character lists. -/
def strStartsWith (s pre : String) : Bool :=
  pre.toList.isPrefixOf s.toList

/-- Models a suffix test on the character lists (`str.endswith`). -/
def strEndsWith (s suf : String) : Bool :=
  suf.toList.reverse.isPrefixOf s.toList.reverse

/-- Models Python `str.strip()` with no argument: remove whitespace
from both ends of the string. -/
def pyStrip (s : String) : String :=
  String.mk (((s.toList.dropWhile Char.isWhitespace).reverse.dropWhile
    Char.isWhitespace).reverse)

/-- Models POSIX `os.path.join` for the two-argument calls the code
makes: if `b` is absolute it wins; otherwise it is appended to `a`
with a separating slash unless `a` is empty or already ends in one. -/
def osPathJoin (a b : String) : String :=
  if strStartsWith b "/" then b
  else if a.toList.isEmpty || strEndsWith a "/" then a ++ b
  else a ++ "/" ++ b

/-- Models POSIX `os.path.basename`: the part of the path after the
last slash (the whole path when there is no slash). -/
def osPathBasename (p : String) : String :=
  match lastIdxOf p.toList '/' with
  | none => p
  | some i => String.mk (p.toList.drop (i + 1))

/-- Models the root component of POSIX `os.path.splitext` (the code
only uses index `[0]`): everything before the last dot of the final
path component, provided that dot is preceded, within that component,
by some non-dot character; otherwise the whole path. -/
def splitextRoot (p : String) : String :=
  let s := p.toList
  match lastIdxOf s '.' with
  | none => p
  | some dotIdx =>
    let fnStart : Nat :=
      match lastIdxOf s '/' with
      | none => 0
      | some i => i + 1
    if fnStart ≤ dotIdx ∧
        (List.range' fnStart (dotIdx - fnStart)).any (fun j => s.get? j != some '.') then
      String.mk (s.take dotIdx)
    else p

/-- Models POSIX `os.path.dirname`: everything before the last slash,
with trailing slashes stripped unless the result is all slashes. -/
def osPathDirname (p : String) : String :=
  match lastIdxOf p.toList '/' with
  | none => ""
  | some i =>
    let head := p.toList.take (i + 1)
    if head.all (fun c => c == '/') then String.mk head
    else String.mk ((head.reverse.dropWhile (fun c => c == '/')).reverse)

/-- Models `line.split(' ', 1)[1]`: the text after the first space of
`line`, or `none` when `line` contains no space (Python raises
`IndexError` there). -/
def splitSpace1Tail (line : String) : Option String :=
  let s := line.toList
  if s.contains ' ' then some (String.mk ((s.dropWhile (fun c => c != ' ')).tail))
  else none

/-- The fixed ordered extension list of `find_texture_file`. -/
def extensions : List String :=
  [".jpg", ".jpeg", ".png", ".bmp", ".tga", ".JPG", ".JPEG", ".PNG"]

/-- The candidate list built by `find_texture_file`: the two seed
paths, then one appended path per entry of `extensions`, exactly as
the `for ext in extensions` loop appends them. -/
def possible_paths (obj_dir texture_ref : String) : List String :=
  extensions.foldl
    (fun acc ext => acc ++ [osPathJoin obj_dir (splitextRoot texture_ref ++ ext)])
    [osPathJoin obj_dir texture_ref,
     osPathJoin obj_dir (osPathBasename texture_ref)]

/-- Models `MeshGUI.find_texture_file`: return the first candidate
path that exists on the file system, else `None`. -/
def find_texture_file (fs : FS) (obj_dir texture_ref : String) : Option String :=
  (possible_paths obj_dir texture_ref).find? fs.pathExists

/-- State-passing embedding of the `for test_path in possible_paths`
loop: each step consults `os.path.exists` on the current file-system
state and, read-only, passes that state on unchanged. -/
def findLoopSt (fs : FS) : List String → Option String × FS
  | [] => (none, fs)
  | p :: rest => if fs.pathExists p then (some p, fs) else findLoopSt fs rest

/-- State-passing embedding of `MeshGUI.find_texture_file`, returning
the resolved path together with the file-system state after the call. -/
def find_texture_file_st (fs : FS) (obj_dir texture_ref : String) :
    Option String × FS :=
  findLoopSt fs (possible_paths obj_dir texture_ref)

/-- Scanner for the OBJ descriptor (`Step 1` of
`load_obj_with_textures`): for each line, strip it; a line starting
with `mtllib` contributes `line.split(' ', 1)[1]` to the collected
material files, unless that indexing raises (no space), which aborts
the scan and keeps only the entries collected so far; a line starting
with `vt` sets the texture-coordinate flag.  Result:
`(mtl_files, has_texture_coords, aborted)`. -/
def scanObjLines : List String → List String × Bool × Bool
  | [] => ([], false, false)
  | l :: rest =>
    let line := pyStrip l
    if strStartsWith line "mtllib" then
      match splitSpace1Tail line with
      | some m =>
        let r := scanObjLines rest
        (m :: r.1, r.2.1, r.2.2)
      | none => ([], false, true)
    else if strStartsWith line "vt" then
      let r := scanObjLines rest
      (r.1, true, r.2.2)
    else scanObjLines rest

/-- Scanner for one MTL file (`Step 2`): collect
`line.split(' ', 1)[1]` for every stripped line starting with
`map_Kd`; a spaceless keyword line aborts the scan of this file,
keeping the references collected before it.  Result:
`(texture_refs, aborted)`. -/
def scanMtlLines : List String → List String × Bool
  | [] => ([], false)
  | l :: rest =>
    let line := pyStrip l
    if strStartsWith line "map_Kd" then
      match splitSpace1Tail line with
      | some t =>
        let r := scanMtlLines rest
        (t :: r.1, r.2)
      | none => ([], true)
    else scanMtlLines rest

/-- Reading the OBJ descriptor: the lines delivered before an optional
I/O failure are scanned; an I/O failure, like an `IndexError`, is
caught by the surrounding handler and only marks the scan aborted. -/
def scanObj (lines : List String) (readFail : Bool) :
    List String × Bool × Bool :=
  let r := scanObjLines lines
  (r.1, r.2.1, r.2.2 || readFail)

/-- Reading one MTL file, with an optional I/O failure after the
delivered lines (caught and logged by the handler). -/
def scanMtl (lines : List String) (readFail : Bool) : List String × Bool :=
  let r := scanMtlLines lines
  (r.1, r.2 || readFail)

/-- Environment of one load operation: the file-system state, the
lines delivered when reading the OBJ descriptor (with its I/O-failure
flag), the lines delivered when reading each MTL path (with per-path
I/O-failure flags), the textures the geometry library's loader
attached on its own, and which image paths `o3d.io.read_image` can
read without raising. -/
structure LoadEnv where
  fs : FS
  objLines : List String
  objReadFail : Bool
  mtlLines : String → List String
  mtlReadFail : String → Bool
  autoTextures : List String
  readImageOk : String → Bool

/-- Scan of the MTL file at `p` as the load operation performs it. -/
def scanMtlFile (env : LoadEnv) (p : String) : List String × Bool :=
  scanMtl (env.mtlLines p) (env.mtlReadFail p)

/-- Step 2 of `load_obj_with_textures`: for each collected material
file name, join it to the OBJ directory and, when that path exists,
append every `map_Kd` reference scanned from it. -/
def texturePaths (env : LoadEnv) (obj_dir : String)
    (mtl_files : List String) : List String :=
  mtl_files.foldl
    (fun acc m =>
      let mtl_path := osPathJoin obj_dir m
      if env.fs.pathExists mtl_path then acc ++ (scanMtlFile env mtl_path).1
      else acc)
    []

/-- The existence probes `find_texture_file` performs for one
reference: every candidate up to and including the first that exists. -/
def probeList (fs : FS) : List String → List String
  | [] => []
  | p :: rest => if fs.pathExists p then [p] else p :: probeList fs rest

/-- Step 4 of `load_obj_with_textures`: walk the texture references,
resolve each with `find_texture_file`, and stop at the first resolved
path whose image loads; a failing `read_image` or an unresolved
reference moves on to the next.  Also returns the list of
file-system paths probed. -/
def manualLoop (fs : FS) (readImageOk : String → Bool) (obj_dir : String) :
    List String → Option String × List String
  | [] => (none, [])
  | ref :: rest =>
    let probes := probeList fs (possible_paths obj_dir ref)
    match find_texture_file fs obj_dir ref with
    | some p =>
      if readImageOk p then (some p, probes)
      else
        let r := manualLoop fs readImageOk obj_dir rest
        (r.1, probes ++ r.2)
    | none =>
      let r := manualLoop fs readImageOk obj_dir rest
      (r.1, probes ++ r.2)

/-- The skin-tone fallback color `[0.7, 0.5, 0.3]` passed to
`paint_uniform_color`, as exact rationals. -/
def skinTone : List ℚ :=
  [(0.7 : ℚ), (0.5 : ℚ), (0.3 : ℚ)]

/-- Observable outcome of a load operation: the textures attached to
the mesh handed to the viewer, the uniform color painted on it (if
any), and the file-system paths probed during manual resolution. -/
structure LoadOutcome where
  textures : List String
  color : Option (List ℚ)
  probes : List String
  deriving DecidableEq

/-- Models `MeshGUI.load_obj_with_textures`: raise (error) when the
OBJ path does not exist; otherwise scan the descriptor for `mtllib`
entries, scan each existing MTL file for `map_Kd` references, attempt
manual texture resolution only when the loader attached no texture and
some reference was collected, and paint the skin-tone color exactly
when the mesh ends up with no texture. -/
def load_obj_with_textures (env : LoadEnv) (obj_path : String) :
    Except String LoadOutcome :=
  if env.fs.pathExists obj_path then
    let obj_dir := osPathDirname obj_path
    let mtl_files := (scanObj env.objLines env.objReadFail).1
    let tex_refs := texturePaths env obj_dir mtl_files
    let manual :=
      if env.autoTextures.isEmpty && !tex_refs.isEmpty then
        manualLoop env.fs env.readImageOk obj_dir tex_refs
      else (none, [])
    let textures :=
      match manual.1 with
      | some p => [p]
      | none => env.autoTextures
    let color := if textures.isEmpty then some skinTone else none
    Except.ok ⟨textures, color, manual.2⟩
  else Except.error ("OBJ file not found: " ++ obj_path)

/-- Concrete file system for the end-to-end uppercase-extension
scenario: the descriptor, the material file, and only the lowercase
`body.jpg` exist. -/
def fsC2 : FS :=
  ⟨["d/m.obj", "d/mat.mtl", "d/body.jpg"]⟩

/-- Concrete load environment for the end-to-end uppercase-extension
scenario: `d/m.obj` references `mat.mtl`, which references `body.JPG`;
no texture is auto-attached. -/
def envC2 : LoadEnv :=
  ⟨fsC2, ["mtllib mat.mtl"], false,
   (fun p => if p = "d/mat.mtl" then ["map_Kd body.JPG"] else []),
   (fun _ => false), [], (fun _ => true)⟩

/-- Concrete environment in which the geometry library auto-attached a
texture. -/
def envC4 : LoadEnv :=
  ⟨⟨["a.obj"]⟩, ["mtllib m.mtl"], false, (fun _ => ["map_Kd t.png"]),
   (fun _ => false), ["auto.png"], (fun _ => true)⟩

/-- Concrete environment whose load ends with no texture at all. -/
def envC5 : LoadEnv :=
  ⟨⟨["a.obj"]⟩, [], false, (fun _ => []), (fun _ => false), [],
   (fun _ => true)⟩

/-- Concrete environment in which both the descriptor read and every
material read fail after delivering their lines. -/
def envC6 : LoadEnv :=
  ⟨⟨["a.obj"]⟩, ["mtllib m.mtl"], true, (fun _ => ["map_Kd t.png"]),
   (fun _ => true), [], (fun _ => true)⟩

/-- Concrete environment whose directory `d` holds only the material
file `a.mtl`, referencing `t.png`. -/
def envC7 : LoadEnv :=
  ⟨⟨["d/a.mtl"]⟩, [], false,
   (fun p => if p = "d/a.mtl" then ["map_Kd t.png"] else []),
   (fun _ => false), [], (fun _ => true)⟩

section Lemmas

variable {α : Type}

/-- In a concatenation whose left part fails the predicate everywhere,
`find?` returns the element at the seam when it satisfies the
predicate. -/
theorem find?_first (p : α → Bool) (l1 : List α) (x : α) (l2 : List α)
    (h : ∀ y ∈ l1, p y = false) (hx : p x = true) :
    (l1 ++ x :: l2).find? p = some x := by
  have h1 : l1.find? p = none := by
    exact List.find?_eq_none.mpr (fun y hy => by simp [h y hy])
  rw [List.find?_append, h1, Option.none_or, List.find?_cons_of_pos l2 hx]

/-- `find?` only consults the predicate on the list's elements. -/
theorem find?_ext (p q : α → Bool) (l : List α)
    (h : ∀ a ∈ l, p a = q a) : l.find? p = l.find? q := by
  induction l with
  | nil => rfl
  | cons a t ih =>
    have ha : p a = q a := h a (by simp)
    cases hq : q a with
    | true =>
      rw [List.find?_cons_of_pos t (ha.trans hq),
        List.find?_cons_of_pos t hq]
    | false =>
      rw [List.find?_cons_of_neg t (by simp [ha, hq]),
        List.find?_cons_of_neg t (by simp [hq])]
      exact ih (fun b hb => h b (by simp [hb]))

/-- The value component of the state-passing search loop agrees with
`List.find?`. -/
theorem findLoopSt_fst (fs : FS) (l : List String) :
    (findLoopSt fs l).1 = l.find? fs.pathExists := by
  induction l with
  | nil => rfl
  | cons p rest ih =>
    cases hp : fs.pathExists p with
    | true => simp [findLoopSt, hp, List.find?_cons_of_pos rest hp]
    | false =>
      have hneg : ¬fs.pathExists p = true := by simp [hp]
      simp [findLoopSt, hp, List.find?_cons_of_neg rest hneg, ih]

/-- The state-passing search loop returns the file system unchanged. -/
theorem findLoopSt_snd (fs : FS) (l : List String) :
    (findLoopSt fs l).2 = fs := by
  induction l with
  | nil => rfl
  | cons p rest ih =>
    cases hp : fs.pathExists p with
    | true => simp [findLoopSt, hp]
    | false => simp [findLoopSt, hp, ih]

/-- Scanning a concatenation whose left part does not abort
concatenates the collected entries, ors the flags, and takes the abort
status of the right part. -/
theorem scanObjLines_append (A L : List String)
    (h : (scanObjLines A).2.2 = false) :
    scanObjLines (A ++ L) =
      ((scanObjLines A).1 ++ (scanObjLines L).1,
       (scanObjLines A).2.1 || (scanObjLines L).2.1,
       (scanObjLines L).2.2) := by
  induction A with
  | nil => simp [scanObjLines]
  | cons l A ih =>
    cases hb1 : strStartsWith (pyStrip l) "mtllib" with
    | true =>
      cases hsp : splitSpace1Tail (pyStrip l) with
      | some m =>
        have h' : (scanObjLines A).2.2 = false := by
          simpa [scanObjLines, hb1, hsp] using h
        simp [scanObjLines, hb1, hsp, ih h']
      | none => simp [scanObjLines, hb1, hsp] at h
    | false =>
      cases hb2 : strStartsWith (pyStrip l) "vt" with
      | true =>
        have h' : (scanObjLines A).2.2 = false := by
          simpa [scanObjLines, hb1, hb2] using h
        simp [scanObjLines, hb1, hb2, ih h']
      | false =>
        have h' : (scanObjLines A).2.2 = false := by
          simpa [scanObjLines, hb1, hb2] using h
        simp [scanObjLines, hb1, hb2, ih h']

/-- A block with no `mtllib` line contributes no entry and never
aborts the descriptor scan. -/
theorem scanObjLines_no_mtllib (A : List String)
    (h : ∀ l ∈ A, strStartsWith (pyStrip l) "mtllib" = false) :
    (scanObjLines A).1 = [] ∧ (scanObjLines A).2.2 = false := by
  induction A with
  | nil => simp [scanObjLines]
  | cons l A ih =>
    have hl : strStartsWith (pyStrip l) "mtllib" = false := h l (by simp)
    have ih' := ih (fun x hx => h x (by simp [hx]))
    cases hb2 : strStartsWith (pyStrip l) "vt" with
    | true => simpa [scanObjLines, hl, hb2] using ih'
    | false => simpa [scanObjLines, hl, hb2] using ih'

/-- MTL analogue of `scanObjLines_append`. -/
theorem scanMtlLines_append (A L : List String)
    (h : (scanMtlLines A).2 = false) :
    scanMtlLines (A ++ L) =
      ((scanMtlLines A).1 ++ (scanMtlLines L).1, (scanMtlLines L).2) := by
  induction A with
  | nil => simp [scanMtlLines]
  | cons l A ih =>
    cases hb1 : strStartsWith (pyStrip l) "map_Kd" with
    | true =>
      cases hsp : splitSpace1Tail (pyStrip l) with
      | some t =>
        have h' : (scanMtlLines A).2 = false := by
          simpa [scanMtlLines, hb1, hsp] using h
        simp [scanMtlLines, hb1, hsp, ih h']
      | none => simp [scanMtlLines, hb1, hsp] at h
    | false =>
      have h' : (scanMtlLines A).2 = false := by
        simpa [scanMtlLines, hb1] using h
      simp [scanMtlLines, hb1, ih h']

end Lemmas

/-- C1: `find_texture_file` probes, in exactly this order, the
verbatim join, the basename join, and one stem-plus-extension join per
entry of the fixed extension list `[.jpg, .jpeg, .png, .bmp, .tga,
.JPG, .JPEG, .PNG]`, and returns the first probed candidate that
exists, or `none` when none exists; in particular, once the two seed
candidates fail, the result is the candidate of the earliest extension
in the list whose candidate exists. -/
theorem C1_probe_order_first_match (fs : FS) (d r : String) :
    possible_paths d r =
      [osPathJoin d r, osPathJoin d (osPathBasename r)] ++
        extensions.map (fun e => osPathJoin d (splitextRoot r ++ e))
    ∧ extensions =
        [".jpg", ".jpeg", ".png", ".bmp", ".tga", ".JPG", ".JPEG", ".PNG"]
    ∧ find_texture_file fs d r = (possible_paths d r).find? fs.pathExists
    ∧ (find_texture_file fs d r = none ↔
        ∀ p ∈ possible_paths d r, fs.pathExists p = false)
    ∧ (∀ l1 x l2, possible_paths d r = l1 ++ x :: l2 →
        (∀ q ∈ l1, fs.pathExists q = false) → fs.pathExists x = true →
        find_texture_file fs d r = some x)
    ∧ (fs.pathExists (osPathJoin d r) = false →
        fs.pathExists (osPathJoin d (osPathBasename r)) = false →
        find_texture_file fs d r =
          (extensions.find? (fun e =>
            fs.pathExists (osPathJoin d (splitextRoot r ++ e)))).map
            (fun e => osPathJoin d (splitextRoot r ++ e))) := by
  refine ⟨rfl, rfl, rfl, ?_, ?_, ?_⟩
  · unfold find_texture_file
    rw [List.find?_eq_none]
    simp
  · intro l1 x l2 heq h1 hx
    unfold find_texture_file
    rw [heq]
    exact find?_first _ l1 x l2 h1 hx
  · intro h1 h2
    show (osPathJoin d r :: osPathJoin d (osPathBasename r) ::
        extensions.map (fun e => osPathJoin d (splitextRoot r ++ e))).find?
          fs.pathExists = _
    rw [List.find?_cons_of_neg _ (by simp [h1]),
      List.find?_cons_of_neg _ (by simp [h2]), List.find?_map]
    rfl

/-- C1 witness: with only `d/tex.png` present, resolution of the
extensionless reference `tex` returns `d/tex.png`, the first existing
candidate. -/
theorem C1_witness :
    find_texture_file ⟨["d/tex.png"]⟩ "d" "tex" = some "d/tex.png" :=
  (C1_probe_order_first_match ⟨["d/tex.png"]⟩ "d" "tex").2.2.2.2.1
    ["d/tex", "d/tex", "d/tex.jpg", "d/tex.jpeg"] "d/tex.png"
    ["d/tex.bmp", "d/tex.tga", "d/tex.JPG", "d/tex.JPEG", "d/tex.PNG"]
    (by decide) (by decide) (by decide)

/-- C2: with `body.JPG` referenced, `directory/body.JPG` absent and
`directory/body.jpg` present on the (case-sensitive) file system,
resolution succeeds with `directory/body.jpg`, reached as the `.jpg`
entry of the explicit extension-candidate list; end-to-end, loading
`envC2` (whose material file contains `map_Kd body.JPG`) probes
`d/body.JPG` twice, then `d/body.jpg`, and attaches exactly
`d/body.jpg`. -/
theorem C2_uppercase_reference (fs : FS) (d : String)
    (h1 : fs.pathExists (osPathJoin d "body.JPG") = false)
    (h2 : fs.pathExists (osPathJoin d "body.jpg") = true) :
    find_texture_file fs d "body.JPG" = some (osPathJoin d "body.jpg")
    ∧ osPathJoin d "body.jpg" =
        osPathJoin d (splitextRoot "body.JPG" ++ ".jpg")
    ∧ load_obj_with_textures envC2 "d/m.obj" =
        Except.ok ⟨["d/body.jpg"], none,
          ["d/body.JPG", "d/body.JPG", "d/body.jpg"]⟩ := by
  refine ⟨?_, rfl, rfl⟩
  show (osPathJoin d "body.JPG" :: osPathJoin d "body.JPG" ::
      osPathJoin d "body.jpg" :: _).find? fs.pathExists = _
  rw [List.find?_cons_of_neg _ (by simp [h1]),
    List.find?_cons_of_neg _ (by simp [h1]),
    List.find?_cons_of_pos _ h2]

/-- C2 witness: the concrete directory `d` with only `d/body.jpg`
present resolves the reference `body.JPG` to `d/body.jpg`. -/
theorem C2_witness :
    find_texture_file ⟨["d/body.jpg"]⟩ "d" "body.JPG" = some "d/body.jpg" :=
  (C2_uppercase_reference ⟨["d/body.jpg"]⟩ "d" (by decide) (by decide)).1

/-- C3 counterexample: with both the verbatim path `d/sub/tex.png` and
the flattened path `d/tex.png` present, `find_texture_file` returns
the verbatim path, which differs from
`directory/basename(reference)` — refuting the claim for the case
where the verbatim candidate also exists. -/
theorem C3_counterexample :
    find_texture_file ⟨["d/sub/tex.png", "d/tex.png"]⟩ "d" "sub/tex.png" =
      some "d/sub/tex.png"
    ∧ FS.pathExists ⟨["d/sub/tex.png", "d/tex.png"]⟩
        (osPathJoin "d" (osPathBasename "sub/tex.png")) = true
    ∧ osPathJoin "d" (osPathBasename "sub/tex.png") ≠ "d/sub/tex.png" := by
  decide

/-- C3 amended: for every reference, when the verbatim candidate
`directory/reference` does not exist and
`directory/basename(reference)` does, resolution returns
`directory/basename(reference)`. -/
theorem C3_basename_fallback (fs : FS) (d r : String)
    (h1 : fs.pathExists (osPathJoin d r) = false)
    (h2 : fs.pathExists (osPathJoin d (osPathBasename r)) = true) :
    find_texture_file fs d r = some (osPathJoin d (osPathBasename r)) := by
  show (osPathJoin d r :: osPathJoin d (osPathBasename r) :: _).find?
    fs.pathExists = _
  rw [List.find?_cons_of_neg _ (by simp [h1]), List.find?_cons_of_pos _ h2]

/-- C3 amended witness: the verbatim `d/sub/tex.png` is absent,
`d/tex.png` is present, and resolution returns `d/tex.png`. -/
theorem C3_witness :
    find_texture_file ⟨["d/tex.png"]⟩ "d" "sub/tex.png" = some "d/tex.png" :=
  C3_basename_fallback ⟨["d/tex.png"]⟩ "d" "sub/tex.png" (by decide) (by decide)

/-- C8: when no generated candidate exists on the file system,
`find_texture_file` returns `none`; the embedding is a total function,
so absence is an ordinary result, not an exception. -/
theorem C8_not_found_is_none (fs : FS) (d r : String)
    (h : ∀ p ∈ possible_paths d r, fs.pathExists p = false) :
    find_texture_file fs d r = none := by
  unfold find_texture_file
  exact List.find?_eq_none.mpr (fun p hp => by simp [h p hp])

/-- C8 witness: on an empty file system, resolution of `tex` in `d`
returns `none`. -/
theorem C8_witness : find_texture_file ⟨[]⟩ "d" "tex" = none :=
  C8_not_found_is_none ⟨[]⟩ "d" "tex" (by decide)

/-- C9: two runs of the resolver over file systems with identical
existence state return the same result, and the state-passing
embedding returns the file system unchanged while computing the same
value as `find_texture_file`. -/
theorem C9_deterministic_read_only (fs1 fs2 : FS) (d r : String)
    (h : ∀ p, fs1.pathExists p = fs2.pathExists p) :
    find_texture_file fs1 d r = find_texture_file fs2 d r
    ∧ (find_texture_file_st fs1 d r).2 = fs1
    ∧ (find_texture_file_st fs1 d r).1 = find_texture_file fs1 d r := by
  refine ⟨?_, findLoopSt_snd fs1 (possible_paths d r), ?_⟩
  · exact find?_ext _ _ (possible_paths d r) (fun p _ => h p)
  · exact findLoopSt_fst fs1 (possible_paths d r)

/-- C9 witness: on the concrete one-file system, the state after the
call is the state before it. -/
theorem C9_witness :
    (find_texture_file_st ⟨["d/t.png"]⟩ "d" "t").2 = ⟨["d/t.png"]⟩ :=
  (C9_deterministic_read_only ⟨["d/t.png"]⟩ ⟨["d/t.png"]⟩ "d" "t"
    (fun _ => rfl)).2.1

/-- C4: when the geometry library's loader already attached at least
one texture, manual resolution is skipped: no file-system path is
probed, the auto-attached textures are kept unreplaced, and no
fallback color is painted. -/
theorem C4_auto_texture_skips_manual (env : LoadEnv) (obj_path : String)
    (hobj : env.fs.pathExists obj_path = true)
    (hauto : env.autoTextures ≠ []) :
    load_obj_with_textures env obj_path =
      Except.ok ⟨env.autoTextures, none, []⟩ := by
  have hne : env.autoTextures.isEmpty = false := by
    simp [List.isEmpty_iff, hauto]
  simp [load_obj_with_textures, hobj, hne]

/-- C4 witness: loading `envC4`, whose loader auto-attached
`auto.png`, keeps exactly that texture, paints nothing and probes
nothing, although a material reference was collected. -/
theorem C4_witness :
    load_obj_with_textures envC4 "a.obj" =
      Except.ok ⟨["auto.png"], none, []⟩ :=
  C4_auto_texture_skips_manual envC4 "a.obj" (by decide) (by decide)

/-- C5: a load operation that ends with no texture attached paints the
mesh handed to the viewer with the fixed uniform color
`[0.7, 0.5, 0.3]` instead of leaving it untextured. -/
theorem C5_untextured_gets_skin_tone (env : LoadEnv) (obj_path : String)
    (o : LoadOutcome)
    (h : load_obj_with_textures env obj_path = Except.ok o)
    (ht : o.textures = []) :
    o.color = some skinTone ∧ skinTone = [(0.7 : ℚ), 0.5, 0.3] := by
  refine ⟨?_, rfl⟩
  by_cases hp : env.fs.pathExists obj_path = true
  · simp only [load_obj_with_textures, hp, if_true, Except.ok.injEq] at h
    subst h
    simp only at ht ⊢
    rw [ht]
    rfl
  · simp [load_obj_with_textures, hp] at h

/-- C5 witness: the load of `envC5` finds no texture and its outcome
carries the skin-tone color. -/
theorem C5_witness :
    (⟨[], some skinTone, []⟩ : LoadOutcome).color = some skinTone
    ∧ skinTone = [(0.7 : ℚ), 0.5, 0.3] :=
  C5_untextured_gets_skin_tone envC5 "a.obj" ⟨[], some skinTone, []⟩
    (by rfl) (by rfl)

/-- C6: read failures are non-fatal: the load outcome with failing
descriptor and material reads equals the outcome of the failure-free
load of the same delivered lines, the load still succeeds, and a scan
hit by an I/O failure yields exactly the entries parsed from the lines
delivered before the failure. -/
theorem C6_read_failure_nonfatal (env : LoadEnv) (obj_path : String)
    (h : env.fs.pathExists obj_path = true) :
    load_obj_with_textures env obj_path =
      load_obj_with_textures
        ⟨env.fs, env.objLines, false, env.mtlLines, (fun _ => false),
         env.autoTextures, env.readImageOk⟩ obj_path
    ∧ (load_obj_with_textures env obj_path).isOk = true
    ∧ (scanObj env.objLines true).1 = (scanObjLines env.objLines).1
    ∧ ∀ p, (scanMtl (env.mtlLines p) true).1 =
        (scanMtlLines (env.mtlLines p)).1 := by
  refine ⟨rfl, ?_, rfl, fun _ => rfl⟩
  simp [load_obj_with_textures, h, Except.isOk, Except.toBool]

/-- C6 witness: in `envC6` both the descriptor read and the material
read fail after delivering their lines, yet the load succeeds. -/
theorem C6_witness :
    (load_obj_with_textures envC6 "a.obj").isOk = true :=
  (C6_read_failure_nonfatal envC6 "a.obj" (by decide)).2.1

/-- C7: a descriptor consisting of two argument-carrying `mtllib`
lines among non-`mtllib` lines parses to exactly the two material
names in file order, and the texture references are collected by
independently scanning each of the two referenced files that exists. -/
theorem C7_two_mtllib_entries (env : LoadEnv) (d : String)
    (A B C : List String) (l1 l2 m1 m2 : String)
    (hA : ∀ l ∈ A, strStartsWith (pyStrip l) "mtllib" = false)
    (hB : ∀ l ∈ B, strStartsWith (pyStrip l) "mtllib" = false)
    (hC : ∀ l ∈ C, strStartsWith (pyStrip l) "mtllib" = false)
    (h1 : strStartsWith (pyStrip l1) "mtllib" = true)
    (h1a : splitSpace1Tail (pyStrip l1) = some m1)
    (h2 : strStartsWith (pyStrip l2) "mtllib" = true)
    (h2a : splitSpace1Tail (pyStrip l2) = some m2) :
    (scanObjLines (A ++ l1 :: (B ++ l2 :: C))).1 = [m1, m2]
    ∧ texturePaths env d [m1, m2] =
        (if env.fs.pathExists (osPathJoin d m1) = true
         then (scanMtlFile env (osPathJoin d m1)).1 else [])
        ++ (if env.fs.pathExists (osPathJoin d m2) = true
            then (scanMtlFile env (osPathJoin d m2)).1 else []) := by
  constructor
  · obtain ⟨hAnil, hAab⟩ := scanObjLines_no_mtllib A hA
    obtain ⟨hBnil, hBab⟩ := scanObjLines_no_mtllib B hB
    obtain ⟨hCnil, _⟩ := scanObjLines_no_mtllib C hC
    have hB2 : (scanObjLines (B ++ l2 :: C)).1 = [m2] := by
      rw [scanObjLines_append B _ hBab]
      simp [hBnil, scanObjLines, h2, h2a, hCnil]
    rw [scanObjLines_append A _ hAab]
    simp [hAnil, scanObjLines, h1, h1a, hB2]
  · by_cases e1 : env.fs.pathExists (osPathJoin d m1) = true <;>
      by_cases e2 : env.fs.pathExists (osPathJoin d m2) = true <;>
        simp [texturePaths, List.foldl, e1, e2]

/-- C7 witness: the five-line descriptor with two `mtllib` lines
parses to `["a.mtl", "b.mtl"]`, and with only `d/a.mtl` existing the
collected references are those scanned from it. -/
theorem C7_witness :
    (scanObjLines
      ["# c", "mtllib a.mtl", "v 0 0 0", "mtllib b.mtl", "vt 0 0"]).1 =
      ["a.mtl", "b.mtl"]
    ∧ texturePaths envC7 "d" ["a.mtl", "b.mtl"] = ["t.png"] :=
  C7_two_mtllib_entries envC7 "d" ["# c"] ["v 0 0 0"] ["vt 0 0"]
    "mtllib a.mtl" "mtllib b.mtl" "a.mtl" "b.mtl"
    (by decide) (by decide) (by decide) (by decide) (by decide)
    (by decide) (by decide)

/-- C10: a stripped line equal to the bare keyword contains no space,
so extracting its argument (`split(' ', 1)[1]`) raises `IndexError`
(modelled as `none`); the handler stops scanning the file there, so
the kept entries are exactly those collected before the offending
line, lines after it are dropped, and the scan is marked aborted —
for `mtllib` in the descriptor scan and `map_Kd` in the material
scan alike. -/
theorem C10_bare_keyword_truncates (pre post pre2 post2 : List String)
    (hpre : (scanObjLines pre).2.2 = false)
    (hpre2 : (scanMtlLines pre2).2 = false) :
    splitSpace1Tail "mtllib" = none
    ∧ scanObjLines (pre ++ "mtllib" :: post) =
        ((scanObjLines pre).1, (scanObjLines pre).2.1, true)
    ∧ splitSpace1Tail "map_Kd" = none
    ∧ scanMtlLines (pre2 ++ "map_Kd" :: post2) =
        ((scanMtlLines pre2).1, true) := by
  refine ⟨rfl, ?_, rfl, ?_⟩
  · rw [scanObjLines_append pre _ hpre]
    have hstep : scanObjLines ("mtllib" :: post) = ([], false, true) := rfl
    rw [hstep]
    simp
  · rw [scanMtlLines_append pre2 _ hpre2]
    have hstep : scanMtlLines ("map_Kd" :: post2) = ([], true) := rfl
    rw [hstep]
    simp

/-- C10 witness: concrete three-line files with a bare keyword in the
middle keep only the first entry and drop the third line. -/
theorem C10_witness :
    scanObjLines ["mtllib a.mtl", "mtllib", "mtllib c.mtl"] =
      (["a.mtl"], false, true)
    ∧ scanMtlLines ["map_Kd a.png", "map_Kd", "map_Kd b.png"] =
        (["a.png"], true) :=
  ⟨(C10_bare_keyword_truncates ["mtllib a.mtl"] ["mtllib c.mtl"]
      ["map_Kd a.png"] ["map_Kd b.png"] (by decide) (by decide)).2.1,
   (C10_bare_keyword_truncates ["mtllib a.mtl"] ["mtllib c.mtl"]
      ["map_Kd a.png"] ["map_Kd b.png"] (by decide) (by decide)).2.2.2⟩

end HMR
